import Mathlib

/-!
Verification development for the kernel frontend messaging layer
(`IPython/zmq/kernelmanager.py`): a shallow embedding of the channel and
kernel-manager state machines, together with theorems about their
behaviour.

Modelling conventions:
* Python exceptions are modelled by `PyResult`: `raised e s` carries the
  state at the moment of the raise, so mutations performed before a raise
  persist, exactly as in Python.
* Machine/Python integers are `Int` (ports, signal numbers) or `Nat`
  (bitmasks, ids); Python's `a & ~s` on non-negative ints is `bitAndNot`.
* Threads are modelled by their observable flags: `started` (Python's
  `Thread` may be started at most once) and `alive` (`Thread.is_alive`);
  `join` is modelled by its postcondition `alive = false`.
* The event loop's `update_handler` calls and the manager's process /
  thread actions are recorded in explicit logs so that "no launch
  happened" and "threads started in this order" are statable.
-/

/-- The distinct `RuntimeError` conditions raised by the module, named as in
the specification's error taxonomy. -/
inductive KError where
  | alreadyRunning          -- "Cannot set address on a running channel!"
  | alreadyStarted          -- Python `Thread.start` called a second time
  | alreadyListening        -- "Cannot start listening. Already listening!"
  | remoteLaunchUnsupported -- "Can only launch a kernel on localhost."
  | noKernelRunning         -- "No kernel is running!"
deriving DecidableEq, Repr

/-- Result of a Python call: either a normal return of the new state, or a
raised exception together with the state at the moment of the raise
(mutations made before the raise persist, as in Python). -/
inductive PyResult (α : Type) where
  | ok (a : α)
  | raised (e : KError) (a : α)
deriving DecidableEq, Repr

/-- The state carried by a `PyResult`, whether returned or raised. -/
def PyResult.state {α : Type} : PyResult α → α
  | .ok a => a
  | .raised _ a => a

/-- Whether the call returned normally. -/
def PyResult.isOk {α : Type} : PyResult α → Bool
  | .ok _ => true
  | .raised _ _ => false

-- `LOCALHOST = '127.0.0.1'`
def LOCALHOST : String := "127.0.0.1"

/-- A channel address: `(ip address, port)`. -/
abbrev Address := String × Int

-- The zmq poll-event bits used by the module.
def POLLIN : Nat := 1

def POLLOUT : Nat := 2

def POLLERR : Nat := 4

/-- Python's `a & ~s` for non-negative integers: clear from `a` every bit
set in `s`.  Stated as a subtraction so that it evaluates in the kernel;
`bitAndNot_eq_ldiff` shows it is the bitwise and-not. -/
def bitAndNot (a s : Nat) : Nat := a - (a &&& s)

/-- The per-channel event-loop registration state: the interest bitmask
`iostate` and the log of `ioloop.update_handler` calls (each entry is the
new bitmask passed to the handler update). -/
structure IOLoopState where
  iostate : Nat
  updates : List Nat
deriving DecidableEq, Repr

namespace ZmqSocketChannel

/-- The callback posted by `ZmqSocketChannel.add_io_state(state)`: run on
the loop thread, it unions `state` into the interest mask and updates the
handler registration, but only when some bit of `state` is missing. -/
def add_io_state_callback (state : Nat) (l : IOLoopState) : IOLoopState :=
  if l.iostate &&& state == 0 then
    { iostate := l.iostate ||| state,
      updates := l.updates ++ [l.iostate ||| state] }
  else l

/-- The callback posted by `ZmqSocketChannel.drop_io_state(state)`: run on
the loop thread, it subtracts `state` from the interest mask and updates
the handler registration, but only when some bit of `state` is present. -/
def drop_io_state_callback (state : Nat) (l : IOLoopState) : IOLoopState :=
  if l.iostate &&& state == 0 then l
  else
    { iostate := bitAndNot l.iostate state,
      updates := l.updates ++ [bitAndNot l.iostate state] }

/-- Observable state of a channel thread (`ZmqSocketChannel`, a `Thread`
subclass): whether `start` was ever called, whether the thread is alive,
the stored `_address`, and the loop registration state. -/
structure State where
  started : Bool
  alive : Bool
  addr : Address
  loop : IOLoopState
deriving DecidableEq, Repr

/-- Embedding of `Thread.is_alive`. -/
def is_alive (ch : State) : Bool := ch.alive

/-- Embedding of `ZmqSocketChannel.get_address`. -/
def get_address (ch : State) : Address := ch.addr

/-- Embedding of `ZmqSocketChannel.set_adresss` (the source's spelling): raises if the
thread is alive, otherwise stores the address, with `None` standing for
the default `(LOCALHOST, 0)`. -/
def set_adresss (ch : State) (address : Option Address) : PyResult State :=
  if is_alive ch then .raised .alreadyRunning ch
  else
    match address with
    | none => .ok { ch with addr := (LOCALHOST, 0) }
    | some a => .ok { ch with addr := a }

/-- Python `Thread.start`: raises when the thread was already started once
(threads are not restartable), otherwise the thread becomes started and
alive. -/
def threadStart (ch : State) : PyResult State :=
  if ch.started then .raised .alreadyStarted ch
  else .ok { ch with started := true, alive := true }

/-- Embedding of `ZmqSocketChannel.stop` (as refined by the channel subclasses): stops
the loop and joins; on return the thread has fully exited. -/
def stop (ch : State) : State := { ch with alive := false }

end ZmqSocketChannel

/-- A message header: the fields of the envelope header that the module
reads (`msg['header']['msg_id']` and the message type). -/
structure Header where
  msg_id : Nat
  msg_type : String
deriving DecidableEq, Repr

/-- A wire message envelope: a header plus a content body.  The content is
modelled as the Python dict literal that built it: an ordered list of
key/value string pairs. -/
structure Msg where
  header : Header
  content : List (String × String)
deriving DecidableEq, Repr

/-- Modelled from the spec: the session collaborator (`Session.msg` is
imported from the `session` module, which is not under `src/`).  Per the
spec it "builds an envelope with a unique id given a message type and
content body"; the id generator is modelled as an external stream `ids`
indexed by the number of envelopes built so far. -/
structure Session where
  ids : Nat → Nat
  built : Nat

/-- Modelled from the spec: `session.msg(msg_type, content)` returns a
fully formed envelope whose header carries the next generated message id
and the given type, advancing the generator. -/
def Session.msg (s : Session) (msg_type : String) (content : List (String × String)) :
    Msg × Session :=
  ({ header := { msg_id := s.ids s.built, msg_type := msg_type }, content := content },
   { s with built := s.built + 1 })

namespace XReqSocketChannel

/-- State of the request channel that the claims observe: the session
collaborator, the thread-safe FIFO `command_queue` (front of list = front
of queue), the loop registration state, and the ordered log `wire` of
frames passed to `socket.send_json`. -/
structure State where
  session : Session
  command_queue : List Msg
  loop : IOLoopState
  wire : List Msg

/-- Embedding of `XReqSocketChannel._queue_request(msg, callback)`: put the message on
the command queue and request writable interest.  (The `callback`
argument is ignored by the source.) -/
def queue_request (msg : Msg) (st : State) : State :=
  { st with command_queue := st.command_queue ++ [msg],
            loop := ZmqSocketChannel.add_io_state_callback POLLOUT st.loop }

/-- Embedding of `XReqSocketChannel._handle_send`: on writable readiness, try a
non-blocking `get` from the command queue — on `Empty` do nothing, else
send the message — and then, if the queue is empty, drop writable
interest. -/
def handle_send (st : State) : State :=
  let st1 :=
    match st.command_queue with
    | [] => st
    | m :: rest => { st with command_queue := rest, wire := st.wire ++ [m] }
  if st1.command_queue.isEmpty then
    { st1 with loop := ZmqSocketChannel.drop_io_state_callback POLLOUT st1.loop }
  else st1

/-- Embedding of `XReqSocketChannel.execute(code)`: build the content body, obtain an
envelope of type `execute_request` from the session, queue it, and return
the header's message id. -/
def execute (code : String) (st : State) : Nat × State :=
  let content := [("code", code)]
  let (msg, session') := st.session.msg "execute_request" content
  let st' := queue_request msg { st with session := session' }
  (msg.header.msg_id, st')

/-- Embedding of `XReqSocketChannel.complete(text, line, block)`: build the content body
(only `text` and `line`; `block` is unused by the source), obtain an
envelope of type `complete_request`, queue it, and return the id. -/
def complete (text line : String) (block : Option String) (st : State) : Nat × State :=
  let content := [("text", text), ("line", line)]
  let (msg, session') := st.session.msg "complete_request" content
  let st' := queue_request msg { st with session := session' }
  (msg.header.msg_id, st')

/-- Embedding of `XReqSocketChannel.object_info(oname)`: build the content body, obtain
an envelope of type `object_info_request`, queue it, and return the id. -/
def object_info (oname : String) (st : State) : Nat × State :=
  let content := [("oname", oname)]
  let (msg, session') := st.session.msg "object_info_request" content
  let st' := queue_request msg { st with session := session' }
  (msg.header.msg_id, st')

/-- One public request call on the channel, with its arguments. -/
inductive Request where
  | executeReq (code : String)
  | completeReq (text line : String) (block : Option String)
  | objectInfoReq (oname : String)

/-- Dispatch a request call to the corresponding channel method. -/
def doRequest : Request → State → Nat × State
  | .executeReq code, st => execute code st
  | .completeReq text line block, st => complete text line block st
  | .objectInfoReq oname, st => object_info oname st

/-- An event observed by the channel: a public request call from the owning
thread, or a writable-readiness event on the loop thread (which runs
`_handle_send`). -/
inductive Ev where
  | call (r : Request)
  | writable

/-- Run one event, accumulating the message ids returned to the caller. -/
def stepEv (p : State × List Nat) (e : Ev) : State × List Nat :=
  match e with
  | .call r =>
    let (i, st') := doRequest r p.1
    (st', p.2 ++ [i])
  | .writable => (handle_send p.1, p.2)

/-- Run a sequence of events from a state, accumulating returned ids. -/
def runTrace (evs : List Ev) (st : State) : State × List Nat :=
  evs.foldl stepEv (st, [])

/-- The envelope a request call builds from a given session state
(the first component of `Session.msg` as invoked by `doRequest`). -/
def requestMsg : Request → Session → Msg × Session
  | .executeReq code, s => s.msg "execute_request" [("code", code)]
  | .completeReq text line _, s => s.msg "complete_request" [("text", text), ("line", line)]
  | .objectInfoReq oname, s => s.msg "object_info_request" [("oname", oname)]

/-- The envelopes the trace's calls enqueue, in call order, threading the
session through the calls exactly as the channel does. -/
def envelopesOf (evs : List Ev) (s : Session) : List Msg :=
  match evs with
  | [] => []
  | .call r :: rest =>
    let (m, s') := requestMsg r s
    m :: envelopesOf rest s'
  | .writable :: rest => envelopesOf rest s

/-- The number of request calls in a trace. -/
def numCalls (evs : List Ev) : Nat :=
  match evs with
  | [] => 0
  | .call _ :: rest => numCalls rest + 1
  | .writable :: rest => numCalls rest

/-- The request channel's state right after `run()` set up the loop
(`iostate = POLLERR|POLLIN`) and before any request: empty queue, nothing
sent, session generator `ids` not yet used. -/
def initState (ids : Nat → Nat) : State :=
  { session := { ids := ids, built := 0 },
    command_queue := [],
    loop := { iostate := POLLERR ||| POLLIN, updates := [] },
    wire := [] }

end XReqSocketChannel

namespace SubSocketChannel

/-- Embedding of `socket.recv_json(zmq.NOBLOCK)`: the socket's pending frames are the
list `sock`; a non-blocking receive returns the front frame and the rest,
or raises `ZMQError` (would-block) when nothing is pending. -/
def recv_json_nb (sock : List Msg) : Except Unit (Msg × List Msg) :=
  match sock with
  | [] => .error ()
  | m :: rest => .ok (m, rest)

/-- Embedding of `SubSocketChannel._handle_recv`: on read readiness, loop a non-blocking
receive until it raises, dispatching each received message to
`call_handlers`; returns the ordered list of `call_handlers` invocations
made so far (`handled`) and the frames left on the socket. -/
def handle_recv (sock : List Msg) (handled : List Msg) : List Msg × List Msg :=
  match h : recv_json_nb sock with
  | .error _ => (handled, sock)
  | .ok (m, rest) => handle_recv rest (handled ++ [m])
termination_by sock.length
decreasing_by
  cases sock with
  | nil => simp [recv_json_nb] at h
  | cons a t =>
    simp [recv_json_nb] at h
    simp [h.2]

end SubSocketChannel

/-- A channel owned by the kernel manager. -/
inductive ChannelName where
  | sub
  | xreq
  | rep
deriving DecidableEq, Repr

/-- Externally observable actions of the kernel manager: calls into the
process-launch collaborator and the process handle, and channel-thread
lifecycle transitions. -/
inductive KMEvent where
  | launched (xrep_port pub_port : Int)
  | killed (handle : Nat)
  | signaled (handle : Nat) (signum : Int)
  | threadStarted (c : ChannelName)
  | threadStopped (c : ChannelName)
deriving DecidableEq, Repr

namespace KernelManager

/-- State of the kernel manager: the listening flag, the three channels
(modelled as already constructed in their default state — the source
constructs them lazily on first property access, which is observationally
the same here), the optional kernel process handle, and the action log. -/
structure State where
  is_listening : Bool
  sub_channel : ZmqSocketChannel.State
  xreq_channel : ZmqSocketChannel.State
  rep_channel : ZmqSocketChannel.State
  kernel : Option Nat
  log : List KMEvent
deriving DecidableEq, Repr

/-- Embedding of `KernelManager.start_listening`: raises if already listening; otherwise
sets the flag and starts the sub, xreq and rep channel threads in that
order (each `Thread.start` raising if that thread was started before,
with the mutations already made persisting). -/
def start_listening (km : State) : PyResult State :=
  if km.is_listening then .raised .alreadyListening km
  else
    let km1 := { km with is_listening := true }
    match ZmqSocketChannel.threadStart km1.sub_channel with
    | .raised e ch => .raised e { km1 with sub_channel := ch }
    | .ok ch =>
      let km2 := { km1 with sub_channel := ch, log := km1.log ++ [KMEvent.threadStarted ChannelName.sub] }
      match ZmqSocketChannel.threadStart km2.xreq_channel with
      | .raised e ch2 => .raised e { km2 with xreq_channel := ch2 }
      | .ok ch2 =>
        let km3 := { km2 with xreq_channel := ch2, log := km2.log ++ [KMEvent.threadStarted ChannelName.xreq] }
        match ZmqSocketChannel.threadStart km3.rep_channel with
        | .raised e ch3 => .raised e { km3 with rep_channel := ch3 }
        | .ok ch3 =>
          .ok { km3 with rep_channel := ch3, log := km3.log ++ [KMEvent.threadStarted ChannelName.rep] }

/-- Embedding of `KernelManager.stop_listening`: if not listening, do nothing; otherwise
clear the flag and stop the sub, xreq and rep channels in turn, each stop
joining the thread (it returns with the thread no longer alive). -/
def stop_listening (km : State) : State :=
  if km.is_listening then
    let km1 := { km with is_listening := false }
    let km2 := { km1 with sub_channel := ZmqSocketChannel.stop km1.sub_channel,
                          log := km1.log ++ [KMEvent.threadStopped ChannelName.sub] }
    let km3 := { km2 with xreq_channel := ZmqSocketChannel.stop km2.xreq_channel,
                          log := km2.log ++ [KMEvent.threadStopped ChannelName.xreq] }
    { km3 with rep_channel := ZmqSocketChannel.stop km3.rep_channel,
               log := km3.log ++ [KMEvent.threadStopped ChannelName.rep] }
  else km

/-- Embedding of `KernelManager.set_kernel(kernel)`: adopt an existing kernel process. -/
def set_kernel (kernel : Nat) (km : State) : State :=
  { km with kernel := some kernel }

/-- Embedding of `KernelManager.has_kernel`: whether a kernel process handle is held. -/
def has_kernel (km : State) : Bool := km.kernel.isSome

/-- Embedding of `KernelManager.start_kernel`: requires both the xreq and sub addresses
to be on `LOCALHOST`, else raises; otherwise calls the launch
collaborator with the requested ports, records the process handle, and
rewrites the two addresses (through the channels' address setters, which
raise if the channel thread is alive) to the ports actually bound.
The collaborator is `Modelled from the spec`: `kernel.launch_kernel` is
imported from the `kernel` module, which is not under `src/`; per the spec
it returns a process handle and the two actually-bound ports, and is
passed here as the function `launch`. -/
def start_kernel (launch : Int → Int → Nat × Int × Int) (km : State) : PyResult State :=
  let xreq := ZmqSocketChannel.get_address km.xreq_channel
  let sub := ZmqSocketChannel.get_address km.sub_channel
  if xreq.1 ≠ LOCALHOST ∨ sub.1 ≠ LOCALHOST then
    .raised .remoteLaunchUnsupported km
  else
    let (kernel, xrep, pub) := launch xreq.2 sub.2
    let km1 := set_kernel kernel { km with log := km.log ++ [KMEvent.launched xreq.2 sub.2] }
    match ZmqSocketChannel.set_adresss km1.xreq_channel (some (LOCALHOST, xrep)) with
    | .raised e ch => .raised e { km1 with xreq_channel := ch }
    | .ok ch =>
      let km2 := { km1 with xreq_channel := ch }
      match ZmqSocketChannel.set_adresss km2.sub_channel (some (LOCALHOST, pub)) with
      | .raised e ch2 => .raised e { km2 with sub_channel := ch2 }
      | .ok ch2 => .ok { km2 with sub_channel := ch2 }

/-- Embedding of `KernelManager.kill_kernel`: kill the held process and clear the
handle; raises `NoKernelRunning` when none is held. -/
def kill_kernel (km : State) : PyResult State :=
  match km.kernel with
  | some k => .ok { km with kernel := none, log := km.log ++ [KMEvent.killed k] }
  | none => .raised .noKernelRunning km

/-- Embedding of `KernelManager.signal_kernel(signum)`: forward a signal to the held
process; raises `NoKernelRunning` when none is held. -/
def signal_kernel (signum : Int) (km : State) : PyResult State :=
  match km.kernel with
  | some k => .ok { km with log := km.log ++ [KMEvent.signaled k signum] }
  | none => .raised .noKernelRunning km

end KernelManager

/-! ### Helper lemmas about the bitmask operations -/

lemma land_add_ldiff (a s : Nat) : (a &&& s) + Nat.ldiff a s = a := by
  induction a using Nat.binaryRec generalizing s with
  | z =>
    have h0 : Nat.ldiff 0 s = 0 := by
      apply Nat.eq_of_testBit_eq
      intro i
      simp [Nat.testBit_ldiff]
    simp [h0]
  | f b n ih =>
    conv_lhs => rw [← Nat.bit_testBit_zero_shiftRight_one s]
    rw [Nat.land_bit, Nat.ldiff_bit, Nat.bit_val, Nat.bit_val]
    conv_rhs => rw [Nat.bit_val]
    have h := ih (s >>> 1)
    cases b <;> cases hs : s.testBit 0 <;> simp <;> omega

lemma bitAndNot_eq_ldiff (a s : Nat) : bitAndNot a s = Nat.ldiff a s := by
  have h := land_add_ldiff a s
  unfold bitAndNot
  omega

lemma testBit_bitAndNot (a s i : Nat) :
    (bitAndNot a s).testBit i = (a.testBit i && !s.testBit i) := by
  rw [bitAndNot_eq_ldiff, Nat.testBit_ldiff]

lemma bitAndNot_land_self (a s : Nat) : bitAndNot a s &&& s = 0 := by
  apply Nat.eq_of_testBit_eq
  intro i
  simp [Nat.testBit_land, testBit_bitAndNot]

lemma lor_land_self (a s : Nat) : (a ||| s) &&& s = s := by
  apply Nat.eq_of_testBit_eq
  intro i
  simp [Nat.testBit_land, Nat.testBit_or]
  tauto

lemma lor_lor_self (a s : Nat) : (a ||| s) ||| s = a ||| s := by
  apply Nat.eq_of_testBit_eq
  intro i
  simp [Nat.testBit_or]

/-! ### Claim C9 -/

/-- C9: the posted callbacks of `add_io_state` and `drop_io_state` are
idempotent: when the requested interest flag is already present (for add)
or already absent (for drop) the whole loop state — bitmask and handler
update log — is left unchanged, and applying either callback twice has
the same effect on the interest bitmask as applying it once. -/
theorem io_state_callbacks_idempotent (state : Nat) (l : IOLoopState) :
    (l.iostate &&& state ≠ 0 →
      ZmqSocketChannel.add_io_state_callback state l = l) ∧
    (l.iostate &&& state = 0 →
      ZmqSocketChannel.drop_io_state_callback state l = l) ∧
    (ZmqSocketChannel.add_io_state_callback state
        (ZmqSocketChannel.add_io_state_callback state l)).iostate =
      (ZmqSocketChannel.add_io_state_callback state l).iostate ∧
    (ZmqSocketChannel.drop_io_state_callback state
        (ZmqSocketChannel.drop_io_state_callback state l)).iostate =
      (ZmqSocketChannel.drop_io_state_callback state l).iostate := by
  refine ⟨?_, ?_, ?_, ?_⟩
  · intro h
    simp [ZmqSocketChannel.add_io_state_callback, h]
  · intro h
    simp [ZmqSocketChannel.drop_io_state_callback, h]
  · by_cases h : l.iostate &&& state = 0
    · by_cases hs : state = 0
      · subst hs
        simp [ZmqSocketChannel.add_io_state_callback]
      · have h2 : (l.iostate ||| state) &&& state = state := lor_land_self _ _
        simp [ZmqSocketChannel.add_io_state_callback, h, h2, hs]
    · simp [ZmqSocketChannel.add_io_state_callback, h]
  · by_cases h : l.iostate &&& state = 0
    · simp [ZmqSocketChannel.drop_io_state_callback, h]
    · have h2 : bitAndNot l.iostate state &&& state = 0 := bitAndNot_land_self _ _
      simp [ZmqSocketChannel.drop_io_state_callback, h, h2]

/-- A concrete loop state: watching error and read events, as both channel
loops do right after `run()`. -/
def loopEx : IOLoopState := { iostate := POLLERR ||| POLLIN, updates := [] }

/-- Witness for C9 at concrete inputs: adding read interest (already
present) and dropping write interest (already absent) on the initial loop
state change nothing, and both callbacks are idempotent there. -/
theorem io_state_callbacks_idempotent_witness :
    ZmqSocketChannel.add_io_state_callback POLLIN loopEx = loopEx ∧
    ZmqSocketChannel.drop_io_state_callback POLLOUT loopEx = loopEx ∧
    (ZmqSocketChannel.add_io_state_callback POLLIN
        (ZmqSocketChannel.add_io_state_callback POLLIN loopEx)).iostate =
      (ZmqSocketChannel.add_io_state_callback POLLIN loopEx).iostate ∧
    (ZmqSocketChannel.drop_io_state_callback POLLOUT
        (ZmqSocketChannel.drop_io_state_callback POLLOUT loopEx)).iostate =
      (ZmqSocketChannel.drop_io_state_callback POLLOUT loopEx).iostate :=
  ⟨(io_state_callbacks_idempotent POLLIN loopEx).1 (by decide),
   (io_state_callbacks_idempotent POLLOUT loopEx).2.1 (by decide),
   (io_state_callbacks_idempotent POLLIN loopEx).2.2.1,
   (io_state_callbacks_idempotent POLLOUT loopEx).2.2.2⟩

/-! ### Claim C3 -/

/-- C3: setting a channel's address while its thread is alive raises
`AlreadyRunning` with the state (hence the stored address) unchanged;
setting it while the thread is not alive (before start or after stop)
succeeds and the new value is observable through `get_address`. -/
theorem set_adresss_spec (ch : ZmqSocketChannel.State) (a : Address) :
    (ch.alive = true →
      ZmqSocketChannel.set_adresss ch (some a) = .raised .alreadyRunning ch) ∧
    (ch.alive = false →
      ZmqSocketChannel.set_adresss ch (some a) = .ok { ch with addr := a } ∧
      ZmqSocketChannel.get_address { ch with addr := a } = a) := by
  constructor
  · intro h
    simp [ZmqSocketChannel.set_adresss, ZmqSocketChannel.is_alive, h]
  · intro h
    simp [ZmqSocketChannel.set_adresss, ZmqSocketChannel.is_alive,
          ZmqSocketChannel.get_address, h]

/-- A concrete running channel (started and alive) on port 5555. -/
def chAliveEx : ZmqSocketChannel.State :=
  { started := true, alive := true, addr := (LOCALHOST, 5555), loop := loopEx }

/-- A concrete stopped channel (started once, then joined). -/
def chStoppedEx : ZmqSocketChannel.State :=
  { started := true, alive := false, addr := (LOCALHOST, 5555), loop := loopEx }

/-- Witness for C3 at concrete channels: the alive channel rejects the set
and keeps its state; the stopped one accepts it and the getter sees the
new value. -/
theorem set_adresss_spec_witness :
    ZmqSocketChannel.set_adresss chAliveEx (some ("192.168.0.7", 80)) =
      .raised .alreadyRunning chAliveEx ∧
    ZmqSocketChannel.set_adresss chStoppedEx (some ("192.168.0.7", 80)) =
      .ok { chStoppedEx with addr := ("192.168.0.7", 80) } ∧
    ZmqSocketChannel.get_address { chStoppedEx with addr := ("192.168.0.7", 80) } =
      ("192.168.0.7", 80) :=
  ⟨(set_adresss_spec chAliveEx ("192.168.0.7", 80)).1 rfl,
   ((set_adresss_spec chStoppedEx ("192.168.0.7", 80)).2 rfl).1,
   ((set_adresss_spec chStoppedEx ("192.168.0.7", 80)).2 rfl).2⟩

/-! ### Claim C2 -/

/-- C2: `execute`, `complete` and `object_info` each build the content body
for their request kind, obtain from the session an envelope carrying the
session's next fresh id (consuming exactly one id), enqueue exactly that
envelope at the back of the command queue, and return the very message id
embedded in the enqueued frame's header. -/
theorem request_methods_spec (code text line oname : String) (block : Option String)
    (st : XReqSocketChannel.State) :
    ((XReqSocketChannel.execute code st).2.command_queue =
        st.command_queue ++
          [{ header := { msg_id := (XReqSocketChannel.execute code st).1,
                         msg_type := "execute_request" },
             content := [("code", code)] }] ∧
      (XReqSocketChannel.execute code st).1 = st.session.ids st.session.built ∧
      (XReqSocketChannel.execute code st).2.session.built = st.session.built + 1) ∧
    ((XReqSocketChannel.complete text line block st).2.command_queue =
        st.command_queue ++
          [{ header := { msg_id := (XReqSocketChannel.complete text line block st).1,
                         msg_type := "complete_request" },
             content := [("text", text), ("line", line)] }] ∧
      (XReqSocketChannel.complete text line block st).1 = st.session.ids st.session.built ∧
      (XReqSocketChannel.complete text line block st).2.session.built = st.session.built + 1) ∧
    ((XReqSocketChannel.object_info oname st).2.command_queue =
        st.command_queue ++
          [{ header := { msg_id := (XReqSocketChannel.object_info oname st).1,
                         msg_type := "object_info_request" },
             content := [("oname", oname)] }] ∧
      (XReqSocketChannel.object_info oname st).1 = st.session.ids st.session.built ∧
      (XReqSocketChannel.object_info oname st).2.session.built = st.session.built + 1) := by
  refine ⟨⟨rfl, rfl, rfl⟩, ⟨rfl, rfl, rfl⟩, ⟨rfl, rfl, rfl⟩⟩

/-! ### Claim C10 -/

/-- C10: `complete(text, line, block)` builds a content body holding only
the `text` and `line` fields; the `block` argument is discarded, so two
calls differing only in `block` produce identical results (same enqueued
envelope, same returned id, same state). -/
theorem complete_discards_block (text line : String) (b1 b2 : Option String)
    (st : XReqSocketChannel.State) :
    XReqSocketChannel.complete text line b1 st = XReqSocketChannel.complete text line b2 st ∧
    (XReqSocketChannel.complete text line b1 st).2.command_queue =
      st.command_queue ++
        [{ header := { msg_id := st.session.ids st.session.built,
                       msg_type := "complete_request" },
           content := [("text", text), ("line", line)] }] :=
  ⟨rfl, rfl⟩

/-! ### Claim C8 -/

lemma handle_recv_acc (sock acc : List Msg) :
    SubSocketChannel.handle_recv sock acc = (acc ++ sock, []) := by
  induction sock generalizing acc with
  | nil =>
    rw [SubSocketChannel.handle_recv]
    simp [SubSocketChannel.recv_json_nb]
  | cons m rest ih =>
    rw [SubSocketChannel.handle_recv]
    simp [SubSocketChannel.recv_json_nb, ih]

/-- C8: on one read-readiness event the broadcast channel's receive loop
dispatches every currently pending frame to `call_handlers`, exactly once
each and in arrival order, before returning (the socket is left empty);
in particular `n` pending frames yield exactly `n` handler invocations. -/
theorem handle_recv_drains (sock : List Msg) :
    SubSocketChannel.handle_recv sock [] = (sock, []) ∧
    (SubSocketChannel.handle_recv sock []).1.length = sock.length := by
  have h := handle_recv_acc sock []
  simp at h
  simp [h]

/-! ### Claim C1 -/

lemma requestMsg_session (r : XReqSocketChannel.Request) (s : Session) :
    (XReqSocketChannel.requestMsg r s).2 = { s with built := s.built + 1 } ∧
    (XReqSocketChannel.requestMsg r s).1.header.msg_id = s.ids s.built := by
  cases r <;> exact ⟨rfl, rfl⟩

lemma doRequest_eq (r : XReqSocketChannel.Request) (st : XReqSocketChannel.State) :
    XReqSocketChannel.doRequest r st =
      ((XReqSocketChannel.requestMsg r st.session).1.header.msg_id,
       XReqSocketChannel.queue_request (XReqSocketChannel.requestMsg r st.session).1
         { st with session := (XReqSocketChannel.requestMsg r st.session).2 }) := by
  cases r <;> rfl

lemma handle_send_parts (st : XReqSocketChannel.State) :
    (XReqSocketChannel.handle_send st).wire ++
        (XReqSocketChannel.handle_send st).command_queue =
      st.wire ++ st.command_queue ∧
    (XReqSocketChannel.handle_send st).session = st.session := by
  unfold XReqSocketChannel.handle_send
  cases h : st.command_queue with
  | nil => simp [h]
  | cons m rest =>
    by_cases hr : rest = []
    · subst hr
      simp [h]
    · simp [h, List.isEmpty_iff, hr]

lemma runTrace_invariant (evs : List XReqSocketChannel.Ev)
    (p : XReqSocketChannel.State × List Nat) :
    (evs.foldl XReqSocketChannel.stepEv p).1.wire ++
        (evs.foldl XReqSocketChannel.stepEv p).1.command_queue =
      p.1.wire ++ p.1.command_queue ++ XReqSocketChannel.envelopesOf evs p.1.session ∧
    (evs.foldl XReqSocketChannel.stepEv p).2 =
      p.2 ++ (XReqSocketChannel.envelopesOf evs p.1.session).map (fun m => m.header.msg_id) := by
  induction evs generalizing p with
  | nil => simp [XReqSocketChannel.envelopesOf]
  | cons e rest ih =>
    cases e with
    | call r =>
      rw [List.foldl_cons]
      have hstep : XReqSocketChannel.stepEv p (.call r) =
          (XReqSocketChannel.queue_request (XReqSocketChannel.requestMsg r p.1.session).1
            { p.1 with session := (XReqSocketChannel.requestMsg r p.1.session).2 },
           p.2 ++ [(XReqSocketChannel.requestMsg r p.1.session).1.header.msg_id]) := by
        simp [XReqSocketChannel.stepEv, doRequest_eq]
      rw [hstep]
      have h := ih (XReqSocketChannel.queue_request (XReqSocketChannel.requestMsg r p.1.session).1
            { p.1 with session := (XReqSocketChannel.requestMsg r p.1.session).2 },
           p.2 ++ [(XReqSocketChannel.requestMsg r p.1.session).1.header.msg_id])
      rw [h.1, h.2]
      constructor
      · simp [XReqSocketChannel.queue_request, XReqSocketChannel.envelopesOf]
      · simp [XReqSocketChannel.queue_request, XReqSocketChannel.envelopesOf]
    | writable =>
      rw [List.foldl_cons]
      have hstep : XReqSocketChannel.stepEv p .writable =
          (XReqSocketChannel.handle_send p.1, p.2) := rfl
      rw [hstep]
      have h := ih (XReqSocketChannel.handle_send p.1, p.2)
      dsimp only at h
      have hs := handle_send_parts p.1
      rw [h.1, h.2, hs.2]
      simp only [XReqSocketChannel.envelopesOf]
      constructor
      · rw [hs.1]
      · trivial

lemma envelopesOf_ids (evs : List XReqSocketChannel.Ev) (ids : Nat → Nat) (n : Nat) :
    (XReqSocketChannel.envelopesOf evs { ids := ids, built := n }).map
        (fun m => m.header.msg_id) =
      (List.range (XReqSocketChannel.numCalls evs)).map (fun i => ids (n + i)) := by
  induction evs generalizing n with
  | nil => simp [XReqSocketChannel.envelopesOf, XReqSocketChannel.numCalls]
  | cons e rest ih =>
    cases e with
    | call r =>
      have h1 := requestMsg_session r { ids := ids, built := n }
      simp only [XReqSocketChannel.envelopesOf, XReqSocketChannel.numCalls]
      rw [List.range_succ_eq_map]
      simp only [List.map_cons, List.map_map, h1.1, h1.2, ih (n + 1)]
      congr 1
      apply List.map_congr_left
      intro a _
      simp only [Function.comp_apply]
      congr 1
      omega
    | writable =>
      simp only [XReqSocketChannel.envelopesOf, XReqSocketChannel.numCalls]
      exact ih n

lemma handle_send_take_drop (st : XReqSocketChannel.State) :
    (XReqSocketChannel.handle_send st).wire = st.wire ++ st.command_queue.take 1 ∧
    (XReqSocketChannel.handle_send st).command_queue = st.command_queue.drop 1 := by
  unfold XReqSocketChannel.handle_send
  cases h : st.command_queue with
  | nil => simp [h]
  | cons m rest =>
    by_cases hr : rest = []
    · subst hr
      simp [h]
    · simp [h, List.isEmpty_iff, hr]

lemma drop_io_state_callback_clears (s : Nat) (l : IOLoopState) :
    (ZmqSocketChannel.drop_io_state_callback s l).iostate &&& s = 0 := by
  unfold ZmqSocketChannel.drop_io_state_callback
  by_cases h : l.iostate &&& s = 0
  · simp [h]
  · simp [h, bitAndNot_land_self]

lemma handle_send_drop_interest (st : XReqSocketChannel.State) :
    (XReqSocketChannel.handle_send st).command_queue = [] →
      (XReqSocketChannel.handle_send st).loop.iostate &&& POLLOUT = 0 := by
  intro hq
  unfold XReqSocketChannel.handle_send at hq ⊢
  cases h : st.command_queue with
  | nil => simp [h, drop_io_state_callback_clears]
  | cons m rest =>
    by_cases hr : rest = []
    · subst hr
      simp [h, drop_io_state_callback_clears]
    · rw [h] at hq
      simp [List.isEmpty_iff, hr] at hq

/-- C1: for every interleaving of `execute`/`complete`/`object_info` calls
and writable-readiness events on the request channel, started fresh, the
frames sent on the wire followed by the frames still queued are exactly
the enqueued envelopes in call order (so wire transmission order is the
FIFO enqueue order), and — assuming the session collaborator's id stream
is injective (a fresh id per envelope) — the ids returned to callers are
pairwise distinct.  Moreover each writable-readiness event pops at most
one message (sending the queue front and doing nothing when the queue is
empty), and leaves writable interest dropped whenever the queue ends up
empty. -/
theorem fifo_unique_ids (ids : Nat → Nat) (hinj : Function.Injective ids)
    (evs : List XReqSocketChannel.Ev) (st : XReqSocketChannel.State) :
    (XReqSocketChannel.runTrace evs (XReqSocketChannel.initState ids)).1.wire ++
        (XReqSocketChannel.runTrace evs (XReqSocketChannel.initState ids)).1.command_queue =
      XReqSocketChannel.envelopesOf evs { ids := ids, built := 0 } ∧
    ((XReqSocketChannel.runTrace evs (XReqSocketChannel.initState ids)).2).Nodup ∧
    (XReqSocketChannel.handle_send st).wire = st.wire ++ st.command_queue.take 1 ∧
    (XReqSocketChannel.handle_send st).command_queue = st.command_queue.drop 1 ∧
    ((XReqSocketChannel.handle_send st).command_queue = [] →
      (XReqSocketChannel.handle_send st).loop.iostate &&& POLLOUT = 0) := by
  have hinv := runTrace_invariant evs (XReqSocketChannel.initState ids, [])
  have htd := handle_send_take_drop st
  refine ⟨?_, ?_, htd.1, htd.2, handle_send_drop_interest st⟩
  · have h := hinv.1
    simpa [XReqSocketChannel.runTrace, XReqSocketChannel.initState] using h
  · have h := hinv.2
    rw [show XReqSocketChannel.runTrace evs (XReqSocketChannel.initState ids) =
        List.foldl XReqSocketChannel.stepEv (XReqSocketChannel.initState ids, []) evs from rfl]
    rw [h]
    rw [show (XReqSocketChannel.initState ids, ([] : List Nat)).1.session =
        { ids := ids, built := 0 } from rfl]
    rw [envelopesOf_ids]
    simp only [List.nil_append]
    apply List.Nodup.map
    · intro a b hab
      have := hinj hab
      omega
    · exact List.nodup_range _

/-- A concrete trace: three request calls interleaved with writable
readiness events that drain the queue. -/
def evsEx : List XReqSocketChannel.Ev :=
  [.call (.executeReq "x=1"), .call (.completeReq "pri" "pri" none), .writable,
   .call (.objectInfoReq "map"), .writable, .writable]

/-- A concrete envelope for exercising `_handle_send`. -/
def msgEx : Msg :=
  { header := { msg_id := 9, msg_type := "execute_request" }, content := [("code", "x=1")] }

/-- A concrete request-channel state holding one queued message with all
three interest bits set. -/
def stEx : XReqSocketChannel.State :=
  { session := { ids := fun n => n, built := 3 },
    command_queue := [msgEx],
    loop := { iostate := POLLERR ||| POLLIN ||| POLLOUT, updates := [] },
    wire := [] }

/-- Witness for C1 at a concrete id stream, trace and channel state. -/
theorem fifo_unique_ids_witness :
    (XReqSocketChannel.runTrace evsEx (XReqSocketChannel.initState (fun n => n))).1.wire ++
        (XReqSocketChannel.runTrace evsEx
          (XReqSocketChannel.initState (fun n => n))).1.command_queue =
      XReqSocketChannel.envelopesOf evsEx { ids := fun n => n, built := 0 } ∧
    ((XReqSocketChannel.runTrace evsEx (XReqSocketChannel.initState (fun n => n))).2).Nodup ∧
    (XReqSocketChannel.handle_send stEx).wire = stEx.wire ++ stEx.command_queue.take 1 ∧
    (XReqSocketChannel.handle_send stEx).command_queue = stEx.command_queue.drop 1 ∧
    (XReqSocketChannel.handle_send stEx).loop.iostate &&& POLLOUT = 0 :=
  have h := fifo_unique_ids (fun n => n) (fun _ _ hab => hab) evsEx stEx
  ⟨h.1, h.2.1, h.2.2.1, h.2.2.2.1, h.2.2.2.2 rfl⟩

/-! ### Claim C6 -/

/-- C6: `stop_listening` on a non-listening manager is a no-op (no error,
no state change); on a listening manager it clears `is_listening` and
stops the three channels in turn, each stop joining its thread (the
thread is no longer alive afterwards). -/
theorem stop_listening_spec (km : KernelManager.State) :
    (km.is_listening = false → KernelManager.stop_listening km = km) ∧
    (km.is_listening = true →
      (KernelManager.stop_listening km).is_listening = false ∧
      (KernelManager.stop_listening km).sub_channel.alive = false ∧
      (KernelManager.stop_listening km).xreq_channel.alive = false ∧
      (KernelManager.stop_listening km).rep_channel.alive = false ∧
      (KernelManager.stop_listening km).log =
        km.log ++ [KMEvent.threadStopped ChannelName.sub,
                   KMEvent.threadStopped ChannelName.xreq,
                   KMEvent.threadStopped ChannelName.rep]) := by
  constructor <;> intro h <;>
    simp [KernelManager.stop_listening, ZmqSocketChannel.stop, h]

/-- A channel that has never been started, in its default address state. -/
def chFresh : ZmqSocketChannel.State :=
  { started := false, alive := false, addr := (LOCALHOST, 0),
    loop := { iostate := 0, updates := [] } }

/-- A freshly constructed manager: not listening, fresh channels, no
kernel. -/
def kmFresh : KernelManager.State :=
  { is_listening := false, sub_channel := chFresh, xreq_channel := chFresh,
    rep_channel := chFresh, kernel := none, log := [] }

/-- A listening manager: all three channel threads started and alive. -/
def kmListening : KernelManager.State :=
  { is_listening := true, sub_channel := chAliveEx, xreq_channel := chAliveEx,
    rep_channel := chAliveEx, kernel := none, log := [] }

/-- Witness for C6: a fresh manager is left untouched; a listening one ends
up not listening with all three channels stopped, in order. -/
theorem stop_listening_spec_witness :
    KernelManager.stop_listening kmFresh = kmFresh ∧
    (KernelManager.stop_listening kmListening).is_listening = false ∧
    (KernelManager.stop_listening kmListening).sub_channel.alive = false ∧
    (KernelManager.stop_listening kmListening).xreq_channel.alive = false ∧
    (KernelManager.stop_listening kmListening).rep_channel.alive = false ∧
    (KernelManager.stop_listening kmListening).log =
      kmListening.log ++ [KMEvent.threadStopped ChannelName.sub,
                          KMEvent.threadStopped ChannelName.xreq,
                          KMEvent.threadStopped ChannelName.rep] :=
  have h1 := (stop_listening_spec kmFresh).1 rfl
  have h2 := (stop_listening_spec kmListening).2 rfl
  ⟨h1, h2.1, h2.2.1, h2.2.2.1, h2.2.2.2.1, h2.2.2.2.2⟩

/-! ### Claim C7 -/

/-- C7: `kill_kernel` and `signal_kernel` each raise `NoKernelRunning` and
leave the manager unchanged when no process handle is held; after
`set_kernel(handle)` both succeed, `has_kernel` stays true across
`signal_kernel` (which forwards the signal), and becomes false exactly
after `kill_kernel` (which terminates the process and clears the
handle). -/
theorem kernel_process_control_spec (km : KernelManager.State) (handle : Nat) (signum : Int) :
    (km.kernel = none →
      KernelManager.kill_kernel km = .raised .noKernelRunning km ∧
      KernelManager.signal_kernel signum km = .raised .noKernelRunning km ∧
      KernelManager.has_kernel km = false) ∧
    (KernelManager.signal_kernel signum (KernelManager.set_kernel handle km) =
        .ok { km with kernel := some handle,
                      log := km.log ++ [KMEvent.signaled handle signum] } ∧
      KernelManager.has_kernel (KernelManager.set_kernel handle km) = true ∧
      KernelManager.has_kernel
        { km with kernel := some handle,
                  log := km.log ++ [KMEvent.signaled handle signum] } = true ∧
      KernelManager.kill_kernel (KernelManager.set_kernel handle km) =
        .ok { km with kernel := none, log := km.log ++ [KMEvent.killed handle] } ∧
      KernelManager.has_kernel
        { km with kernel := none, log := km.log ++ [KMEvent.killed handle] } = false) := by
  constructor
  · intro h
    refine ⟨?_, ?_, ?_⟩ <;>
      simp [KernelManager.kill_kernel, KernelManager.signal_kernel,
            KernelManager.has_kernel, h]
  · refine ⟨?_, ?_, ?_, ?_, ?_⟩ <;>
      simp [KernelManager.kill_kernel, KernelManager.signal_kernel,
            KernelManager.has_kernel, KernelManager.set_kernel]

/-- Witness for C7 on a fresh manager and handle 42: both calls fail with
no kernel; after adopting 42, signalling keeps the kernel and killing
clears it. -/
theorem kernel_process_control_spec_witness :
    (KernelManager.kill_kernel kmFresh = .raised .noKernelRunning kmFresh ∧
      KernelManager.signal_kernel 2 kmFresh = .raised .noKernelRunning kmFresh ∧
      KernelManager.has_kernel kmFresh = false) ∧
    (KernelManager.signal_kernel 2 (KernelManager.set_kernel 42 kmFresh) =
        .ok { kmFresh with kernel := some 42,
                           log := kmFresh.log ++ [KMEvent.signaled 42 2] } ∧
      KernelManager.has_kernel (KernelManager.set_kernel 42 kmFresh) = true ∧
      KernelManager.has_kernel
        { kmFresh with kernel := some 42,
                       log := kmFresh.log ++ [KMEvent.signaled 42 2] } = true ∧
      KernelManager.kill_kernel (KernelManager.set_kernel 42 kmFresh) =
        .ok { kmFresh with kernel := none, log := kmFresh.log ++ [KMEvent.killed 42] } ∧
      KernelManager.has_kernel
        { kmFresh with kernel := none, log := kmFresh.log ++ [KMEvent.killed 42] } = false) :=
  ⟨(kernel_process_control_spec kmFresh 42 2).1 rfl,
   (kernel_process_control_spec kmFresh 42 2).2⟩

/-! ### Claim C5 -/

/-- C5 (amended): `start_listening` on an already-listening manager raises
`AlreadyListening` without touching any channel thread; on a
non-listening manager whose three channel threads have never been started
it sets `is_listening` and starts the channel threads in the order
broadcast (sub), request (xreq), reverse-request (rep). -/
theorem start_listening_spec (km : KernelManager.State) :
    (km.is_listening = true →
      KernelManager.start_listening km = .raised .alreadyListening km) ∧
    (km.is_listening = false →
      km.sub_channel.started = false →
      km.xreq_channel.started = false →
      km.rep_channel.started = false →
      KernelManager.start_listening km =
        .ok { km with
              is_listening := true,
              sub_channel := { km.sub_channel with started := true, alive := true },
              xreq_channel := { km.xreq_channel with started := true, alive := true },
              rep_channel := { km.rep_channel with started := true, alive := true },
              log := km.log ++ [KMEvent.threadStarted ChannelName.sub,
                                KMEvent.threadStarted ChannelName.xreq,
                                KMEvent.threadStarted ChannelName.rep] }) := by
  constructor
  · intro h
    simp [KernelManager.start_listening, h]
  · intro h h1 h2 h3
    simp [KernelManager.start_listening, ZmqSocketChannel.threadStart, h, h1, h2, h3]

/-- A manager that was listening and then stopped: not listening, but its
channel threads have already run once. -/
def kmStopped : KernelManager.State :=
  { is_listening := false, sub_channel := chStoppedEx, xreq_channel := chStoppedEx,
    rep_channel := chStoppedEx, kernel := none, log := [] }

/-- Counterexample to C5 as stated: on this non-listening manager (one that
was listening before and was stopped) `start_listening` does not start
the channel threads — Python threads are not restartable, so the first
`Thread.start` raises after the listening flag was already set. -/
theorem start_listening_restart_counterexample :
    KernelManager.start_listening kmStopped =
      .raised .alreadyStarted { kmStopped with is_listening := true } ∧
    (KernelManager.start_listening kmStopped).isOk = false ∧
    (KernelManager.start_listening kmStopped).state.sub_channel.alive = false := by
  refine ⟨rfl, rfl, rfl⟩

/-- Witness for C5 (amended): a listening manager raises AlreadyListening
unchanged; a fresh manager starts all three threads in order. -/
theorem start_listening_spec_witness :
    KernelManager.start_listening kmListening = .raised .alreadyListening kmListening ∧
    KernelManager.start_listening kmFresh =
      .ok { kmFresh with
            is_listening := true,
            sub_channel := { kmFresh.sub_channel with started := true, alive := true },
            xreq_channel := { kmFresh.xreq_channel with started := true, alive := true },
            rep_channel := { kmFresh.rep_channel with started := true, alive := true },
            log := kmFresh.log ++ [KMEvent.threadStarted ChannelName.sub,
                                   KMEvent.threadStarted ChannelName.xreq,
                                   KMEvent.threadStarted ChannelName.rep] } :=
  ⟨(start_listening_spec kmListening).1 rfl,
   (start_listening_spec kmFresh).2 rfl rfl rfl rfl⟩

/-! ### Claim C4 -/

/-- C4 (amended): `start_kernel` with the request-channel or
broadcast-channel host different from the loopback host raises
`RemoteLaunchUnsupported` with the manager state unchanged (in
particular, no launch is recorded); when both hosts are local and the two
channel threads are not alive, it calls the launch collaborator with the
requested ports, records the returned process handle, and rewrites the
request and broadcast addresses to the ports the launched process
actually bound. -/
theorem start_kernel_spec (launch : Int → Int → Nat × Int × Int) (km : KernelManager.State) :
    ((km.xreq_channel.addr.1 ≠ LOCALHOST ∨ km.sub_channel.addr.1 ≠ LOCALHOST) →
      KernelManager.start_kernel launch km = .raised .remoteLaunchUnsupported km) ∧
    (km.xreq_channel.addr.1 = LOCALHOST →
      km.sub_channel.addr.1 = LOCALHOST →
      km.xreq_channel.alive = false →
      km.sub_channel.alive = false →
      KernelManager.start_kernel launch km =
        .ok { km with
              kernel := some (launch km.xreq_channel.addr.2 km.sub_channel.addr.2).1,
              xreq_channel := { km.xreq_channel with
                addr := (LOCALHOST,
                  (launch km.xreq_channel.addr.2 km.sub_channel.addr.2).2.1) },
              sub_channel := { km.sub_channel with
                addr := (LOCALHOST,
                  (launch km.xreq_channel.addr.2 km.sub_channel.addr.2).2.2) },
              log := km.log ++
                [KMEvent.launched km.xreq_channel.addr.2 km.sub_channel.addr.2] }) := by
  constructor
  · intro h
    unfold KernelManager.start_kernel
    simp only [ZmqSocketChannel.get_address]
    rw [if_pos h]
  · intro h1 h2 h3 h4
    unfold KernelManager.start_kernel
    simp only [ZmqSocketChannel.get_address]
    rw [if_neg (by simp [h1, h2])]
    rcases hl : launch km.xreq_channel.addr.2 km.sub_channel.addr.2 with ⟨k, xrep, pub⟩
    simp [hl, KernelManager.set_kernel, ZmqSocketChannel.set_adresss,
          ZmqSocketChannel.is_alive, h3, h4]

/-- A concrete launch collaborator: returns process handle 7 with bound
ports 9001 (request) and 9002 (broadcast). -/
def launchEx : Int → Int → Nat × Int × Int := fun _ _ => (7, 9001, 9002)

/-- Counterexample to C4 as stated: on a listening manager with both
addresses local, `start_kernel` does launch and record the handle, but
then raises `AlreadyRunning` from the request channel's address setter
(the channel thread is alive), so it does not succeed and the addresses
are not rewritten. -/
theorem start_kernel_running_counterexample :
    KernelManager.start_kernel launchEx kmListening =
      .raised .alreadyRunning
        { kmListening with kernel := some 7, log := [KMEvent.launched 5555 5555] } ∧
    (KernelManager.start_kernel launchEx kmListening).isOk = false ∧
    (KernelManager.start_kernel launchEx kmListening).state.xreq_channel.addr =
      (LOCALHOST, 5555) := by
  refine ⟨rfl, rfl, rfl⟩

/-- A non-listening manager with the request channel address pointing at a
remote host. -/
def kmRemote : KernelManager.State :=
  { kmFresh with xreq_channel := { chFresh with addr := ("192.168.0.7", 5555) } }

/-- Witness for C4 (amended): the remote-address manager is rejected
unchanged; the fresh local manager launches and gets handle 7 and ports
9001/9002 recorded. -/
theorem start_kernel_spec_witness :
    KernelManager.start_kernel launchEx kmRemote =
      .raised .remoteLaunchUnsupported kmRemote ∧
    KernelManager.start_kernel launchEx kmFresh =
      .ok { kmFresh with
            kernel := some (launchEx kmFresh.xreq_channel.addr.2 kmFresh.sub_channel.addr.2).1,
            xreq_channel := { kmFresh.xreq_channel with
              addr := (LOCALHOST,
                (launchEx kmFresh.xreq_channel.addr.2 kmFresh.sub_channel.addr.2).2.1) },
            sub_channel := { kmFresh.sub_channel with
              addr := (LOCALHOST,
                (launchEx kmFresh.xreq_channel.addr.2 kmFresh.sub_channel.addr.2).2.2) },
            log := kmFresh.log ++
              [KMEvent.launched kmFresh.xreq_channel.addr.2 kmFresh.sub_channel.addr.2] } :=
  ⟨(start_kernel_spec launchEx kmRemote).1 (Or.inl (by decide)),
   (start_kernel_spec launchEx kmFresh).2 rfl rfl rfl rfl⟩
